import Mathlib

/-!
Verification development for the slide-generation backend in
src/backend/app.py.

The Python source is shallowly embedded: Python strings become
`List Char`, Python ints become `Int`, fallible values become `Option`,
and the two HTTP handlers become pure functions from their request
fields (plus the externally produced values: the AI response text and
the generated uuid) to a record of the JSON response fields.

The parser `parse_slides` is built on a character-level embedding of the
regular-expression scan
  re.findall(r"Slide\s*\d+\s*:\s*(.*?)(?=Slide\s*\d+\s*:|$)", text, re.DOTALL)
performed by the source: `matchMarker` recognises the marker
`Slide\s*\d+\s*:` at the head of a suffix, `capture` implements the lazy
group `(.*?)` stopped by the lookahead `(?=Slide\s*\d+\s*:|$)` (with
DOTALL, `$` matches at the end of the string and also just before a
final newline), and `scanF` is the left-to-right non-overlapping scan of
`re.findall`, driven by a fuel argument that is always instantiated with
more fuel than the text length.
-/

/-- Characters of Python's whitespace class: the set matched by the regex
class backslash-s on `str` patterns and stripped by `str.strip()` with no
arguments (ASCII whitespace, the four information separators, and the
Unicode space characters). -/
def isPySpace (c : Char) : Bool :=
  [' ', '\t', '\n', '\r', '\x0b', '\x0c', '\x1c', '\x1d', '\x1e', '\x1f',
   '\x85', '\xa0', '\u1680', '\u2000', '\u2001', '\u2002', '\u2003',
   '\u2004', '\u2005', '\u2006', '\u2007', '\u2008', '\u2009', '\u200a',
   '\u2028', '\u2029', '\u202f', '\u205f', '\u3000'].contains c

/-- The character set of the source call `l.strip(" -•\n")` in
`parse_slides` (line 39): space, hyphen, bullet dot, newline.  Note that
this set does not include tabs and that `str.strip` removes the
characters from both ends of the line. -/
def isLineStripChar (c : Char) : Bool :=
  c == ' ' || c == '-' || c == '•' || c == '\n'

/-- Python `s.strip(chars)` / `s.strip()`: remove from both ends of `cs`
the characters satisfying `p`. -/
def pyStrip (p : Char → Bool) (cs : List Char) : List Char :=
  ((cs.dropWhile p).reverse.dropWhile p).reverse

/-- Python list slicing `xs[:m]` for an arbitrary integer `m`: for
`m ≥ 0` it keeps the first `m` elements; for `m < 0` the stop index
counts from the end, keeping `max 0 (len + m)` elements. -/
def pySlice {α : Type} (m : Int) (xs : List α) : List α :=
  if 0 ≤ m then xs.take m.toNat else xs.take (xs.length - (-m).toNat)

/-- Embedding of the digit class backslash-d restricted to the ASCII
digits 0-9 (on `str` patterns Python also accepts the other Unicode
decimal digits; no input in this development uses them). -/
def isPyDigit (c : Char) : Bool :=
  c.isDigit

/-- Part of the marker match after the literal word: given the suffix
following "Slide", match `\s*\d+\s*:` and return the suffix after the
colon, or `none` when the pattern does not match here. -/
def matchMarkerNum (cs : List Char) : Option (List Char) :=
  let afterWs := cs.dropWhile isPySpace
  if afterWs.takeWhile isPyDigit = [] then none
  else
    let afterNum := (afterWs.dropWhile isPyDigit).dropWhile isPySpace
    if afterNum.head? = some ':' then some afterNum.tail else none

/-- Match of the marker `Slide\s*\d+\s*:` at the head of `cs`: the
literal word (case-sensitive, as in the source, whose pattern is
compiled with `re.DOTALL` only and no `re.IGNORECASE`), then optional
whitespace, at least one digit, optional whitespace, and a colon.
Returns the suffix after the colon on success. -/
def matchMarker (cs : List Char) : Option (List Char) :=
  if cs.take 5 = ['S', 'l', 'i', 'd', 'e'] then matchMarkerNum (cs.drop 5)
  else none

/-- The lazy capture group `(.*?)` stopped by the lookahead
`(?=Slide\s*\d+\s*:|$)`: consume characters one at a time (DOTALL lets
the dot cross newlines) until the current suffix starts a marker, is
empty, or is exactly a final newline (where `$` matches without
`re.MULTILINE`).  Returns the captured characters and the remaining
suffix, from which `re.findall` resumes its scan. -/
def capture : List Char → List Char × List Char
  | [] => ([], [])
  | c :: cs =>
    if (matchMarker (c :: cs)).isSome ∨ (c = '\n' ∧ cs = []) then ([], c :: cs)
    else ((c :: (capture cs).1), (capture cs).2)

/-- The `re.findall` scan: walk the text left to right; at each position
where the marker matches, emit the capture that follows (skipping the
greedy `\s*` after the colon first) and resume at the capture's stop
position; elsewhere advance one character.  The fuel argument only
forces termination and is always called with fuel exceeding the text
length. -/
def scanF : Nat → List Char → List (List Char)
  | 0, _ => []
  | _ + 1, [] => []
  | f + 1, c :: cs =>
    match matchMarker (c :: cs) with
    | some afterM =>
      let seg := capture (afterM.dropWhile isPySpace)
      seg.1 :: scanF f seg.2
    | none => scanF f cs

/-- Number of positions of the text at which the marker
`Slide\s*\d+\s*:` matches: the K of the specification's "text containing
exactly K Slide N: markers". -/
def countMarkers : List Char → Nat
  | [] => 0
  | c :: cs => (if (matchMarker (c :: cs)).isSome then 1 else 0) + countMarkers cs

/-- The input with everything before the first marker removed (the whole
input when no marker occurs). -/
def dropPreamble : List Char → List Char
  | [] => []
  | c :: cs => if (matchMarker (c :: cs)).isSome then c :: cs else dropPreamble cs

/-- A parsed slide record: the dict with keys "title" and "points" built
by `parse_slides`. -/
structure SlideRec where
  title : List Char
  points : List (List Char)
deriving DecidableEq, Repr

/-- The line processing of `parse_slides` (line 39 of the source):
  lines = [l.strip(" -•\n") for l in s.strip().split("\n") if l.strip()]
The guard `l.strip()` (whitespace strip) is evaluated on the raw line,
before the bullet-character strip is applied to it. -/
def cleanLines (s : List Char) : List (List Char) :=
  (((pyStrip isPySpace s).splitOn '\n').filter
      (fun l => !(pyStrip isPySpace l).isEmpty)).map (pyStrip isLineStripChar)

/-- Lines 40-42 of the source: a segment contributes a record exactly
when its processed line list is non-empty; the first line is the title
and the rest are the points. -/
def mkRecord (s : List Char) : Option SlideRec :=
  match cleanLines s with
  | [] => none
  | t :: ps => some ⟨t, ps⟩

/-- Embedding of `parse_slides(text, max_slides=6)` (source lines
36-43): run the regex scan over the text, build a record from every
captured segment that yields at least one processed line, and return the
Python slice `parsed[:max_slides]`. -/
def parse_slides (text : List Char) (max_slides : Int := 6) : List SlideRec :=
  pySlice max_slides ((scanF (text.length + 1) text).filterMap mkRecord)

/-- The line cleaning that section 4.1 of the specification describes in
words, stated as a second definition for comparison with the source's
`pyStrip isLineStripChar`: strip the line of leading and trailing
whitespace and of leading bullet glyphs (hyphen, bullet dot) only,
re-stripping the whitespace the glyph removal uncovers.  Under this
description a trailing bullet glyph stays on the line and a leading tab
is removed; the source does the opposite on both counts. -/
def specCleanLine (l : List Char) : List Char :=
  pyStrip isPySpace
    ((pyStrip isPySpace l).dropWhile (fun c => c == '-' || c == '•'))

/-- An RGB colour triple, the embedding of `RGBColor(r, g, b)`. -/
structure RGB where
  r : Nat
  g : Nat
  b : Nat
deriving DecidableEq, Repr

/-- One entry of the theme table: background fill colour and text
colour. -/
structure ThemeColors where
  bg : RGB
  text : RGB
deriving DecidableEq, Repr

/-- The `theme_colors` dict literal of `apply_template_style` (source
lines 46-52), as an association list in source order. -/
def theme_colors : List (String × ThemeColors) :=
  [("modern", ⟨⟨25, 25, 112⟩, ⟨255, 255, 255⟩⟩),
   ("minimal", ⟨⟨255, 255, 255⟩, ⟨30, 30, 30⟩⟩),
   ("corporate", ⟨⟨0, 51, 102⟩, ⟨255, 215, 0⟩⟩),
   ("creative", ⟨⟨128, 0, 128⟩, ⟨255, 255, 255⟩⟩),
   ("dark", ⟨⟨15, 15, 15⟩, ⟨200, 200, 200⟩⟩)]

/-- The lookup `theme_colors.get(template, theme_colors["modern"])` of
source line 53.  The final fallback of the inner match is unreachable,
since "modern" is a key of the table. -/
def lookupThemeColors (template : String) : ThemeColors :=
  match theme_colors.find? (fun p => p.1 == template) with
  | some p => p.2
  | none =>
    match theme_colors.find? (fun p => p.1 == "modern") with
    | some p => p.2
    | none => ⟨⟨0, 0, 0⟩, ⟨0, 0, 0⟩⟩

/-- Embedding of `apply_template_style(slide, template)` (source lines
45-57): resolve the template name in the theme table, apply the
background colour as the slide's solid fill, and return the text
colour.  The pure content is the pair (applied background fill colour,
returned text colour). -/
def apply_template_style (template : String) : RGB × RGB :=
  let colors := lookupThemeColors template
  (colors.bg, colors.text)

/-- A paragraph placed in a text box of a built slide: its text and the
font attributes the source sets on it. -/
structure BuiltParagraph where
  text : List Char
  size : Nat
  bold : Bool
  color : RGB
  centered : Bool
deriving DecidableEq, Repr

/-- One slide of the built document: its background fill and the
paragraphs of its title box and content box. -/
structure BuiltSlide where
  background : RGB
  title : BuiltParagraph
  bullets : List BuiltParagraph
deriving DecidableEq, Repr

/-- Embedding of `create_ppt_from_slides(slides_data, template)` (source
lines 77-113).  The non-deterministically generated `uuid.uuid4()` is a
parameter.  For each record, in input order, the source adds one blank
slide, fills its background with the resolved theme's background
colour, adds a centered bold 40pt title paragraph whose text is the
record's title and whose colour is the theme's text colour, and adds one
24pt content paragraph per point with text `"➤ " + bullet.strip()` in
the same colour.  The file is saved under `OUTPUT_DIR` but the bare
filename `uuid + ".pptx"` (not the path) is returned. -/
def create_ppt_from_slides (slides_data : List SlideRec) (template : String)
    (uuid : String) : List BuiltSlide × String :=
  (slides_data.map (fun slide_data =>
    let text_color := (apply_template_style template).2
    ⟨(apply_template_style template).1,
     ⟨slide_data.title, 40, true, text_color, true⟩,
     slide_data.points.map (fun bullet =>
       ⟨'➤' :: ' ' :: pyStrip isPySpace bullet, 24, false, text_color, false⟩)⟩),
   uuid ++ ".pptx")

/-- The JSON response of the two generation endpoints: HTTP status code
plus the fields the handlers ever set. -/
structure ApiResponse where
  status : Nat
  success : Bool
  error : Option String
  file_path : Option String
  download_url : Option String
  slides_generated : Option Int
deriving DecidableEq, Repr

/-- Embedding of the handler `generate_ppt_api` for POST /generate-ppt
(source lines 118-133).  `text` and `template?` are the request body
fields (`data.get('text', '')` makes a missing text the empty string, so
`text` itself suffices; `template?` is `None` when absent and defaults
to "modern").  `uuid` is the generated file identifier. -/
def generate_ppt_api (text : List Char) (template? : Option String)
    (uuid : String) : ApiResponse :=
  let topic_text := pyStrip isPySpace text
  let template := template?.getD "modern"
  if topic_text = [] then ⟨400, false, some "Empty topic", none, none, none⟩
  else
    let slides_data := parse_slides topic_text
    if slides_data = [] then
      ⟨400, false, some "No valid slides found", none, none, none⟩
    else
      let filename := (create_ppt_from_slides slides_data template uuid).2
      ⟨200, true, none, some ("/generated/" ++ filename),
       some ("/generated/" ++ filename), none⟩

/-- Embedding of the handler `generate_auto_ppt_api` for POST
/generate-auto-ppt (source lines 135-155).  `slide_count?` is the
optional request field, defaulted to 6.  `ai_text` models the outcome of
`generate_ppt_content`: `none` when the external call raised (the
function returned None); the source's falsiness test `if not ai_text`
also treats an empty returned text as a failure. -/
def generate_auto_ppt_api (topic : List Char) (template? : Option String)
    (slide_count? : Option Int) (ai_text : Option (List Char))
    (uuid : String) : ApiResponse :=
  let topic' := pyStrip isPySpace topic
  let template := template?.getD "modern"
  let slide_count := slide_count?.getD 6
  if topic' = [] then ⟨400, false, some "No topic provided", none, none, none⟩
  else
    match ai_text with
    | none => ⟨500, false, some "AI generation failed", none, none, none⟩
    | some t =>
      if t = [] then ⟨500, false, some "AI generation failed", none, none, none⟩
      else
        let slides_data := parse_slides t slide_count
        if slides_data = [] then
          ⟨400, false, some "AI did not return valid slides", none, none, none⟩
        else
          let filename := (create_ppt_from_slides slides_data template uuid).2
          ⟨200, true, none, some ("/generated/" ++ filename),
           some ("/generated/" ++ filename), some (slides_data.length : Int)⟩

/-! Helper lemmas about the scanner. -/

theorem matchMarkerNum_suffix {cs r : List Char} (h : matchMarkerNum cs = some r) :
    r <:+ cs := by
  simp only [matchMarkerNum] at h
  split at h
  · simp at h
  · split at h
    · have hr : r = (((cs.dropWhile isPySpace).dropWhile isPyDigit).dropWhile isPySpace).tail :=
        (Option.some.inj h).symm
      subst hr
      exact (List.tail_suffix _).trans ((List.dropWhile_suffix _).trans
        ((List.dropWhile_suffix _).trans (List.dropWhile_suffix _)))
    · simp at h

theorem matchMarkerNum_length {cs r : List Char} (h : matchMarkerNum cs = some r) :
    r.length < cs.length := by
  have hsuf := matchMarkerNum_suffix h
  simp only [matchMarkerNum] at h
  split at h
  · simp at h
  · split at h
    · rename_i hcolon
      have hne : ((cs.dropWhile isPySpace).dropWhile isPyDigit).dropWhile isPySpace ≠ [] := by
        intro hnil
        rw [hnil] at hcolon
        simp at hcolon
      have hr : r = (((cs.dropWhile isPySpace).dropWhile isPyDigit).dropWhile isPySpace).tail :=
        (Option.some.inj h).symm
      have hlen : (((cs.dropWhile isPySpace).dropWhile isPyDigit).dropWhile isPySpace).length ≤
          cs.length := ((List.dropWhile_suffix _).trans
            ((List.dropWhile_suffix _).trans (List.dropWhile_suffix _))).length_le
      have hpos : 0 < (((cs.dropWhile isPySpace).dropWhile isPyDigit).dropWhile isPySpace).length :=
        List.length_pos.2 hne
      rw [hr, List.length_tail]
      omega
    · simp at h

theorem matchMarker_suffix_drop {cs r : List Char} (h : matchMarker cs = some r) :
    r <:+ cs.drop 5 := by
  simp only [matchMarker] at h
  split at h
  · exact matchMarkerNum_suffix h
  · simp at h

theorem matchMarker_suffix {cs r : List Char} (h : matchMarker cs = some r) :
    r <:+ cs :=
  (matchMarker_suffix_drop h).trans (List.drop_suffix 5 cs)

theorem matchMarker_length {cs r : List Char} (h : matchMarker cs = some r) :
    r.length + 6 ≤ cs.length := by
  simp only [matchMarker] at h
  split at h
  · rename_i htake
    have h1 : r.length < (cs.drop 5).length := matchMarkerNum_length h
    have h2 : (cs.take 5).length = 5 := by rw [htake]; rfl
    have h3 : (cs.take 5).length = min 5 cs.length := List.length_take 5 cs
    have h4 : (cs.drop 5).length = cs.length - 5 := List.length_drop 5 cs
    omega
  · simp at h

theorem capture_snd_suffix (cs : List Char) : (capture cs).2 <:+ cs := by
  induction cs with
  | nil => exact List.suffix_refl _
  | cons c cs ih =>
    rw [capture]
    split
    · exact List.suffix_refl _
    · exact ih.trans (List.suffix_cons c cs)

theorem capture_snd_length (cs : List Char) : ((capture cs).2).length ≤ cs.length :=
  (capture_snd_suffix cs).length_le

theorem countMarkers_le_of_suffix {s t : List Char} (h : s <:+ t) :
    countMarkers s ≤ countMarkers t := by
  obtain ⟨pre, rfl⟩ := h
  induction pre with
  | nil => simp
  | cons a pre ih =>
    calc countMarkers s ≤ countMarkers (pre ++ s) := ih
      _ ≤ countMarkers (a :: (pre ++ s)) := by
          rw [countMarkers]
          exact Nat.le_add_left _ _
      _ = countMarkers (a :: pre ++ s) := by rw [List.cons_append]

theorem dropPreamble_length_le (cs : List Char) : (dropPreamble cs).length ≤ cs.length := by
  induction cs with
  | nil => exact Nat.le_refl _
  | cons c cs ih =>
    rw [dropPreamble]
    split
    · exact Nat.le_refl _
    · exact le_trans ih (Nat.le_succ _)

theorem scanF_fuel_irrel (f₁ : Nat) : ∀ (f₂ : Nat) (cs : List Char),
    cs.length < f₁ → cs.length < f₂ → scanF f₁ cs = scanF f₂ cs := by
  induction f₁ with
  | zero => intro f₂ cs h₁ _; omega
  | succ f ih =>
    intro f₂ cs h₁ h₂
    cases f₂ with
    | zero => omega
    | succ g =>
      cases cs with
      | nil => rfl
      | cons c cs =>
        cases hm : matchMarker (c :: cs) with
        | some afterM =>
          simp only [scanF, hm]
          have hlen : afterM.length + 6 ≤ cs.length + 1 := matchMarker_length hm
          have hdw : ((afterM.dropWhile isPySpace)).length ≤ afterM.length :=
            (List.dropWhile_suffix _).length_le
          have hcap : ((capture (afterM.dropWhile isPySpace)).2).length ≤
              (afterM.dropWhile isPySpace).length := capture_snd_length _
          rw [ih g (capture (afterM.dropWhile isPySpace)).2 (by simp at h₁; omega)
            (by simp at h₂; omega)]
        | none =>
          simp only [scanF, hm]
          exact ih g cs (by simp at h₁; omega) (by simp at h₂; omega)

theorem scanF_length_le_countMarkers (f : Nat) : ∀ cs : List Char, cs.length < f →
    (scanF f cs).length ≤ countMarkers cs := by
  induction f with
  | zero => intro cs h; omega
  | succ f ih =>
    intro cs h
    cases cs with
    | nil => exact Nat.le_refl _
    | cons c cs =>
      cases hm : matchMarker (c :: cs) with
      | some afterM =>
        have hlen : afterM.length + 6 ≤ cs.length + 1 := matchMarker_length hm
        have hdw : ((afterM.dropWhile isPySpace)).length ≤ afterM.length :=
          (List.dropWhile_suffix _).length_le
        have hcap : ((capture (afterM.dropWhile isPySpace)).2).length ≤
            (afterM.dropWhile isPySpace).length := capture_snd_length _
        have hsufcount : countMarkers ((capture (afterM.dropWhile isPySpace)).2) ≤
            countMarkers cs := by
          refine countMarkers_le_of_suffix (((capture_snd_suffix _).trans
            ((List.dropWhile_suffix _).trans ?_)))
          have h5 : afterM <:+ (c :: cs).drop 5 := matchMarker_suffix_drop hm
          rw [List.drop_succ_cons] at h5
          exact h5.trans (List.drop_suffix 4 cs)
        have hih : (scanF f (capture (afterM.dropWhile isPySpace)).2).length ≤
            countMarkers ((capture (afterM.dropWhile isPySpace)).2) := by
          refine ih _ ?_
          simp at h
          omega
        rw [countMarkers, hm]
        simp only [scanF, hm, List.length_cons, Option.isSome_some, if_true]
        omega
      | none =>
        simp only [scanF, hm]
        rw [countMarkers, hm]
        simp only [Option.isSome_none, Bool.false_eq_true, if_false, Nat.zero_add]
        exact ih cs (by simp at h; omega)

theorem scanF_eq_nil_of_no_marker (f : Nat) : ∀ cs : List Char,
    countMarkers cs = 0 → scanF f cs = [] := by
  induction f with
  | zero => intro cs _; rfl
  | succ f ih =>
    intro cs h
    cases cs with
    | nil => rfl
    | cons c cs =>
      rw [countMarkers] at h
      have hm : matchMarker (c :: cs) = none := by
        cases hmm : matchMarker (c :: cs) with
        | none => rfl
        | some r => rw [hmm] at h; simp at h
      rw [hm] at h
      simp only [scanF, hm]
      exact ih cs (by simpa using h)

theorem scanF_dropPreamble (f : Nat) : ∀ cs : List Char, cs.length < f →
    scanF f cs = scanF f (dropPreamble cs) := by
  induction f with
  | zero => intro cs h; omega
  | succ f ih =>
    intro cs h
    cases cs with
    | nil => rfl
    | cons c cs =>
      cases hm : matchMarker (c :: cs) with
      | some afterM =>
        have hd : dropPreamble (c :: cs) = c :: cs := by
          rw [dropPreamble, if_pos (by rw [hm]; rfl)]
        rw [hd]
      | none =>
        have hd : dropPreamble (c :: cs) = dropPreamble cs := by
          rw [dropPreamble, if_neg (by rw [hm]; simp)]
        rw [hd]
        have hstep : scanF (f + 1) (c :: cs) = scanF f cs := by
          simp only [scanF, hm]
        rw [hstep, ih cs (by simp at h; omega)]
        refine scanF_fuel_irrel f (f + 1) (dropPreamble cs) ?_ ?_
        · have := dropPreamble_length_le cs
          simp at h
          omega
        · have := dropPreamble_length_le cs
          simp at h
          omega

theorem pySlice_subset {α : Type} (m : Int) (xs : List α) : pySlice m xs ⊆ xs := by
  unfold pySlice
  split
  · exact List.take_subset _ _
  · exact List.take_subset _ _

theorem pySlice_length_le {α : Type} (m : Int) (xs : List α) :
    (pySlice m xs).length ≤ xs.length := by
  unfold pySlice
  split
  · rw [List.length_take]; omega
  · rw [List.length_take]; omega

theorem pySlice_length_le_toNat {α : Type} {m : Int} (hm : 0 ≤ m) (xs : List α) :
    (pySlice m xs).length ≤ m.toNat := by
  unfold pySlice
  rw [if_pos hm, List.length_take]
  omega

theorem pySlice_nil {α : Type} (m : Int) : pySlice m ([] : List α) = [] := by
  unfold pySlice
  split
  · exact List.take_nil
  · exact List.take_nil

/-- Claim C10: any text preceding the first marker is silently
discarded: parsing the input gives exactly the same record sequence as
parsing the input with everything before its first marker removed, for
every input and every maxSlides, so no preamble character contributes to
any returned record. -/
theorem claim10_preamble_discarded (cs : List Char) (m : Int) :
    parse_slides cs m = parse_slides (dropPreamble cs) m := by
  unfold parse_slides
  have h1 : scanF (cs.length + 1) cs = scanF (cs.length + 1) (dropPreamble cs) :=
    scanF_dropPreamble (cs.length + 1) cs (by omega)
  have h2 : scanF (cs.length + 1) (dropPreamble cs) =
      scanF ((dropPreamble cs).length + 1) (dropPreamble cs) := by
    have := dropPreamble_length_le cs
    exact scanF_fuel_irrel _ _ _ (by omega) (by omega)
  rw [h1, h2]

theorem parse_slides_eq_nil_of_no_marker (cs : List Char) (m : Int)
    (h : countMarkers cs = 0) : parse_slides cs m = [] := by
  unfold parse_slides
  rw [scanF_eq_nil_of_no_marker _ cs h]
  exact pySlice_nil m

/-- Claim C9: parsing the empty string returns the empty sequence, and
parsing any text in which the marker pattern matches nowhere returns the
empty sequence, for every maxSlides. -/
theorem claim9_no_marker_empty (cs : List Char) (m : Int)
    (h : countMarkers cs = 0) :
    parse_slides cs m = [] ∧ parse_slides [] m = [] :=
  ⟨parse_slides_eq_nil_of_no_marker cs m h,
   parse_slides_eq_nil_of_no_marker [] m rfl⟩

theorem claim9_witness :
    countMarkers ("no Slide markers here".data) = 0 ∧
    parse_slides ("no Slide markers here".data) 6 = [] := by
  refine ⟨by decide, ?_⟩
  exact (claim9_no_marker_empty ("no Slide markers here".data) 6 (by decide)).1

theorem countMarkers_eq_zero_of_no_S {cs : List Char} (h : 'S' ∉ cs) :
    countMarkers cs = 0 := by
  induction cs with
  | nil => rfl
  | cons c cs ih =>
    have hc : matchMarker (c :: cs) = none := by
      rw [matchMarker, if_neg]
      intro htake
      have hhead : c = 'S' := by
        have h5 : (c :: cs).take 5 = c :: cs.take 4 := rfl
        rw [h5] at htake
        injection htake
      exact h (hhead ▸ List.mem_cons_self c cs)
    rw [countMarkers, hc]
    simp only [Option.isSome_none, Bool.false_eq_true, if_false, Nat.zero_add]
    exact ih (fun hmem => h (List.mem_cons_of_mem c hmem))

/-- Claim C2 (amended): the marker scan is case-sensitive on the word
"Slide" (the source compiles its pattern without re.IGNORECASE); in
particular a text that does not contain the uppercase letter S parses to
the empty record sequence for every maxSlides. -/
theorem claim2_case_sensitive (cs : List Char) (m : Int) (h : 'S' ∉ cs) :
    parse_slides cs m = [] :=
  parse_slides_eq_nil_of_no_marker cs m (countMarkers_eq_zero_of_no_S h)

theorem claim2_witness :
    ('S' ∉ ("slide 1: A".data)) ∧ parse_slides ("slide 1: A".data) 6 = [] :=
  ⟨by decide, claim2_case_sensitive ("slide 1: A".data) 6 (by decide)⟩

/-- Counterexample to claim C2 as stated: recapitalising the word of the
marker changes the parsed record sequence.  "Slide 1: A" parses to one
record while "slide 1: A" and "SLIDE 1: A" parse to none. -/
theorem claim2_counterexample :
    parse_slides ("Slide 1: A".data) 6 = [⟨['A'], []⟩] ∧
    parse_slides ("slide 1: A".data) 6 = [] ∧
    parse_slides ("SLIDE 1: A".data) 6 = [] ∧
    parse_slides ("Slide 1: A".data) 6 ≠ parse_slides ("slide 1: A".data) 6 := by
  refine ⟨by decide, by decide, by decide, by decide⟩

/-- Claim C4 (amended): the number of records returned never exceeds the
number of marker occurrences, and for every non-negative maxSlides it is
at most min(K, maxSlides).  (For a negative maxSlides the Python slice
`parsed[:max_slides]` instead drops records from the end, so the
min(K, maxSlides) bound of the claim fails there.)  No padding ever
happens: the result length is bounded by the number of surviving
segments for every maxSlides. -/
theorem claim4_length_bound (cs : List Char) (m : Int) :
    (parse_slides cs m).length ≤ countMarkers cs ∧
    (0 ≤ m → (parse_slides cs m).length ≤ min (countMarkers cs) m.toNat) := by
  have hbase : ((scanF (cs.length + 1) cs).filterMap mkRecord).length ≤ countMarkers cs :=
    le_trans (List.length_filterMap_le _ _)
      (scanF_length_le_countMarkers _ cs (by omega))
  constructor
  · exact le_trans (pySlice_length_le m _) hbase
  · intro hm
    refine le_min (le_trans (pySlice_length_le m _) hbase) ?_
    exact pySlice_length_le_toNat hm _

theorem claim4_witness :
    (0 : Int) ≤ 1 ∧
    (parse_slides ("Slide 1: A\nSlide 2: B".data) 1).length ≤
      min (countMarkers ("Slide 1: A\nSlide 2: B".data)) ((1 : Int)).toNat :=
  ⟨by decide, (claim4_length_bound ("Slide 1: A\nSlide 2: B".data) 1).2 (by decide)⟩

/-- Counterexample to claim C4 as stated for a negative maxSlides: the
text has exactly 3 markers, and parse_slides with maxSlides = -1 returns
2 records, which exceeds min(3, -1). -/
theorem claim4_counterexample :
    countMarkers ("Slide 1: A\nSlide 2: B\nSlide 3: C".data) = 3 ∧
    (parse_slides ("Slide 1: A\nSlide 2: B\nSlide 3: C".data) (-1)).length = 2 ∧
    ¬(((parse_slides ("Slide 1: A\nSlide 2: B\nSlide 3: C".data) (-1)).length : Int) ≤
        min ((countMarkers ("Slide 1: A\nSlide 2: B\nSlide 3: C".data) : Int)) (-1)) := by
  refine ⟨by decide, by decide, by decide⟩

theorem mkRecord_some {s : List Char} {r : SlideRec} (h : mkRecord s = some r) :
    ∃ ps, cleanLines s = r.title :: ps := by
  rw [mkRecord] at h
  split at h
  · simp at h
  · rename_i t ps heq
    obtain rfl := Option.some.inj h
    exact ⟨ps, heq⟩

theorem mkRecord_eq_none {s : List Char} : mkRecord s = none ↔ cleanLines s = [] := by
  cases hcl : cleanLines s with
  | nil => simp [mkRecord, hcl]
  | cons t ps => simp [mkRecord, hcl]

theorem cleanLines_eq_nil_iff {s : List Char} :
    cleanLines s = [] ↔
      ((pyStrip isPySpace s).splitOn '\n').all
        (fun l => (pyStrip isPySpace l).isEmpty) = true := by
  rw [cleanLines, List.map_eq_nil_iff, List.filter_eq_nil_iff, List.all_eq_true]
  constructor
  · intro h l hl
    simpa using h l hl
  · intro h l hl
    simp [h l hl]

/-- Claim C1 (amended): every record emitted by parse_slides takes its
title from a segment line that is non-blank under whitespace stripping,
with that line stripped on both ends of spaces, hyphens, bullet dots and
newlines — but the resulting title may be the empty string (when the
line consists only of those characters), so such records are not
dropped.  A segment contributes no record exactly when all of its lines
are blank under whitespace stripping. -/
theorem claim1_title_shape :
    (∀ (cs : List Char) (m : Int) (r : SlideRec), r ∈ parse_slides cs m →
      ∃ l : List Char, pyStrip isPySpace l ≠ [] ∧
        r.title = pyStrip isLineStripChar l) ∧
    (∀ s : List Char, mkRecord s = none ↔
      ((pyStrip isPySpace s).splitOn '\n').all
        (fun l => (pyStrip isPySpace l).isEmpty) = true) := by
  constructor
  · intro cs m r h
    rw [parse_slides] at h
    have h2 : r ∈ (scanF (cs.length + 1) cs).filterMap mkRecord :=
      pySlice_subset _ _ h
    obtain ⟨s, _, hmk⟩ := List.mem_filterMap.1 h2
    obtain ⟨ps, hcl⟩ := mkRecord_some hmk
    have ht : r.title ∈ cleanLines s := by
      rw [hcl]
      exact List.mem_cons_self _ _
    rw [cleanLines] at ht
    obtain ⟨l, hl, hlt⟩ := List.mem_map.1 ht
    refine ⟨l, ?_, hlt.symm⟩
    have hfil := (List.mem_filter.1 hl).2
    intro hnil
    rw [hnil] at hfil
    simp at hfil
  · intro s
    rw [mkRecord_eq_none]
    exact cleanLines_eq_nil_iff

theorem claim1_witness :
    (⟨"Intro".data, ["point a".data, "point b".data]⟩ : SlideRec) ∈
      parse_slides ("Slide 1: Intro\n- point a\n- point b".data) 6 ∧
    ∃ l : List Char, pyStrip isPySpace l ≠ [] ∧
      (⟨"Intro".data, ["point a".data, "point b".data]⟩ : SlideRec).title =
        pyStrip isLineStripChar l :=
  ⟨by decide,
   claim1_title_shape.1 ("Slide 1: Intro\n- point a\n- point b".data) 6
     ⟨"Intro".data, ["point a".data, "point b".data]⟩ (by decide)⟩

/-- Counterexample to claim C1 as stated: a segment whose first
surviving line is a bare hyphen is not dropped and yields a record whose
title is the empty string; a segment consisting only of a hyphen line
still yields a record (with empty title and no points) instead of being
dropped. -/
theorem claim1_counterexample :
    parse_slides ("Slide 1:\n-\nfoo".data) 6 = [⟨[], ["foo".data]⟩] ∧
    parse_slides ("Slide 1:\n-".data) 6 = [⟨[], []⟩] ∧
    (∃ r ∈ parse_slides ("Slide 1:\n-\nfoo".data) 6, r.title = []) := by
  refine ⟨by decide, by decide, ⟨⟨[], ["foo".data]⟩, by decide, rfl⟩⟩

/-- Claim C3 (amended): the concrete scenario of the claim holds exactly
as stated; in general each kept line is stripped on both ends of the
character set space, hyphen, bullet dot, newline (so a trailing bullet
glyph is removed too), and characters outside that set — a tab for
instance — are not stripped even at the ends of the line. -/
theorem claim3_line_processing :
    parse_slides
        ("Slide 1: Intro\n- point a\n- point b\nSlide 2: Conclusion\n- point c".data) 6 =
      [⟨"Intro".data, ["point a".data, "point b".data]⟩,
       ⟨"Conclusion".data, ["point c".data]⟩] ∧
    parse_slides ("Slide 1: T\n- a -".data) 6 = [⟨"T".data, ["a".data]⟩] ∧
    parse_slides ("Slide 1: T\n\tx".data) 6 = [⟨"T".data, ["\tx".data]⟩] := by
  refine ⟨by decide, by decide, by decide⟩

/-- Counterexample to claim C3 as stated: on the line "- a -" the
cleaning the claim describes (leading/trailing whitespace plus leading
bullet glyphs only) keeps the trailing hyphen, yielding "a -", while
parse_slides produces the point "a"; on the line with a leading tab the
claim's cleaning strips the tab while parse_slides keeps it. -/
theorem claim3_counterexample :
    specCleanLine ("- a -".data) = ['a', ' ', '-'] ∧
    parse_slides ("Slide 1: T\n- a -".data) 6 = [⟨"T".data, ["a".data]⟩] ∧
    "a".data ≠ ['a', ' ', '-'] ∧
    specCleanLine ("\tx".data) = ['x'] ∧
    parse_slides ("Slide 1: T\n\tx".data) 6 = [⟨"T".data, ["\tx".data]⟩] ∧
    "\tx".data ≠ ['x'] := by
  refine ⟨by decide, by decide, by decide, by decide, by decide, by decide⟩

/-- Claim C5: the theme lookup of apply_template_style is a total pure
function: for every template name the resolved colour pair is one of the
five table entries, every name that is not a key of the table (the empty
string and "unknown-xyz" included) resolves to exactly the colour pair
of "modern". -/
theorem claim5_theme_total (t : String) :
    lookupThemeColors t ∈ theme_colors.map Prod.snd ∧
    (t ∉ theme_colors.map Prod.fst →
      apply_template_style t = apply_template_style "modern") ∧
    apply_template_style "" = apply_template_style "modern" ∧
    apply_template_style "unknown-xyz" = apply_template_style "modern" := by
  refine ⟨?_, ?_, by decide, by decide⟩
  · cases hf : theme_colors.find? (fun p => p.1 == t) with
    | some p =>
      have hp : p ∈ theme_colors := List.mem_of_find?_eq_some hf
      have : lookupThemeColors t = p.2 := by
        simp only [lookupThemeColors, hf]
      rw [this]
      exact List.mem_map.2 ⟨p, hp, rfl⟩
    | none =>
      have : lookupThemeColors t =
          match theme_colors.find? (fun p => p.1 == "modern") with
          | some p => p.2
          | none => ⟨⟨0, 0, 0⟩, ⟨0, 0, 0⟩⟩ := by
        simp only [lookupThemeColors, hf]
      rw [this]
      decide
  · intro h
    have hf : theme_colors.find? (fun p => p.1 == t) = none := by
      rw [List.find?_eq_none]
      intro p hp hbeq
      exact h (List.mem_map.2 ⟨p, hp, eq_of_beq hbeq⟩)
    have : lookupThemeColors t =
        match theme_colors.find? (fun p => p.1 == "modern") with
        | some p => p.2
        | none => ⟨⟨0, 0, 0⟩, ⟨0, 0, 0⟩⟩ := by
      simp only [lookupThemeColors, hf]
    simp only [apply_template_style, this]
    decide

theorem claim5_witness :
    ("unknown-xyz" ∉ theme_colors.map Prod.fst) ∧
    apply_template_style "unknown-xyz" = apply_template_style "modern" ∧
    lookupThemeColors "unknown-xyz" ∈ theme_colors.map Prod.snd :=
  ⟨by decide, (claim5_theme_total "unknown-xyz").2.1 (by decide),
   (claim5_theme_total "unknown-xyz").1⟩

/-- Claim C8 (amended): the built document has exactly one slide per
record, in input order; each slide's background is the resolved theme's
background colour; its title paragraph carries the record's title
verbatim, bold and centered, in the theme's text colour; each bullet
paragraph's text is the corresponding point stripped of leading and
trailing whitespace and then prefixed with the marker glyph (the source
computes "➤ " + bullet.strip(), not "➤ " + bullet), in the
theme's text colour; and the returned name is the bare generated
filename uuid + ".pptx", not the full path. -/
theorem claim8_build_document (slides : List SlideRec) (template u : String) :
    (create_ppt_from_slides slides template u).2 = u ++ ".pptx" ∧
    (create_ppt_from_slides slides template u).1.length = slides.length ∧
    (∀ (i : Nat) (r : SlideRec), slides[i]? = some r →
      ∃ s : BuiltSlide, (create_ppt_from_slides slides template u).1[i]? = some s ∧
        s.background = (lookupThemeColors template).bg ∧
        s.title.text = r.title ∧
        s.title.color = (lookupThemeColors template).text ∧
        s.title.bold = true ∧
        s.title.centered = true ∧
        s.bullets.map BuiltParagraph.text =
          r.points.map (fun p => '➤' :: ' ' :: pyStrip isPySpace p) ∧
        (∀ b ∈ s.bullets, b.color = (lookupThemeColors template).text)) := by
  refine ⟨rfl, by simp [create_ppt_from_slides], ?_⟩
  intro i r hr
  refine ⟨⟨(apply_template_style template).1,
    ⟨r.title, 40, true, (apply_template_style template).2, true⟩,
    r.points.map (fun bullet =>
      ⟨'➤' :: ' ' :: pyStrip isPySpace bullet, 24, false,
        (apply_template_style template).2, false⟩)⟩, ?_, rfl, rfl, rfl, rfl, rfl, ?_, ?_⟩
  · simp only [create_ppt_from_slides, List.getElem?_map, hr, Option.map_some']
  · simp [List.map_map]
  · intro b hb
    obtain ⟨p, _, hbp⟩ := List.mem_map.1 hb
    rw [← hbp]
    rfl

theorem claim8_witness :
    ((create_ppt_from_slides
        [⟨"Intro".data, ["point a".data, "point b".data]⟩,
         ⟨"Conclusion".data, ["point c".data]⟩] "dark" "u").1.length = 2) ∧
    (∃ s : BuiltSlide, (create_ppt_from_slides
        [⟨"Intro".data, ["point a".data, "point b".data]⟩,
         ⟨"Conclusion".data, ["point c".data]⟩] "dark" "u").1[0]? = some s ∧
      s.background = ⟨15, 15, 15⟩ ∧
      s.title.text = "Intro".data ∧
      s.title.color = ⟨200, 200, 200⟩ ∧
      s.bullets.map BuiltParagraph.text =
        ['➤' :: ' ' :: "point a".data, '➤' :: ' ' :: "point b".data]) ∧
    (create_ppt_from_slides
        [⟨"Intro".data, ["point a".data, "point b".data]⟩,
         ⟨"Conclusion".data, ["point c".data]⟩] "dark" "u").2 = "u.pptx" := by
  have h := claim8_build_document
    [⟨"Intro".data, ["point a".data, "point b".data]⟩,
     ⟨"Conclusion".data, ["point c".data]⟩] "dark" "u"
  refine ⟨by rw [h.2.1]; rfl, ?_, by rw [h.1]; rfl⟩
  obtain ⟨s, hs, hbg, htt, htc, _, _, hmap, _⟩ :=
    h.2.2 0 ⟨"Intro".data, ["point a".data, "point b".data]⟩ rfl
  refine ⟨s, hs, by rw [hbg]; decide, htt, by rw [htc]; decide, ?_⟩
  rw [hmap]
  decide

/-- Counterexample to claim C8 as stated: for a record whose point has a
leading space, the built bullet line is the glyph followed by the
stripped point, not the glyph followed by the point itself. -/
theorem claim8_counterexample :
    ((create_ppt_from_slides [⟨['T'], [[' ', 'a']]⟩] "modern" "u").1.map
        (fun s => s.bullets.map BuiltParagraph.text)) = [[['➤', ' ', 'a']]] ∧
    ['➤', ' ', 'a'] ≠ '➤' :: ' ' :: [' ', 'a'] := by
  refine ⟨by decide, by decide⟩

/-- Claim C6: the /generate-ppt handler returns 400 with body
success:false, error:"Empty topic" when the stripped text is empty;
400 when the stripped text parses to zero slide records; and its status
is 200 exactly when the stripped text is non-empty and parses to at
least one record, in which case the body carries success:true and the
file_path and download_url fields. -/
theorem claim6_generate_ppt (text : List Char) (tpl : Option String) (u : String) :
    (pyStrip isPySpace text = [] →
      generate_ppt_api text tpl u = ⟨400, false, some "Empty topic", none, none, none⟩) ∧
    (pyStrip isPySpace text ≠ [] → parse_slides (pyStrip isPySpace text) 6 = [] →
      generate_ppt_api text tpl u =
        ⟨400, false, some "No valid slides found", none, none, none⟩) ∧
    ((generate_ppt_api text tpl u).status = 200 ↔
      (pyStrip isPySpace text ≠ [] ∧ parse_slides (pyStrip isPySpace text) 6 ≠ [])) ∧
    ((generate_ppt_api text tpl u).status = 200 →
      generate_ppt_api text tpl u =
        ⟨200, true, none, some ("/generated/" ++ (u ++ ".pptx")),
         some ("/generated/" ++ (u ++ ".pptx")), none⟩) := by
  by_cases h1 : pyStrip isPySpace text = []
  · have he : generate_ppt_api text tpl u =
        ⟨400, false, some "Empty topic", none, none, none⟩ := by
      simp [generate_ppt_api, h1]
    refine ⟨fun _ => he, fun hne _ => absurd h1 hne, ?_, ?_⟩
    · rw [he]
      simp [h1]
    · rw [he]
      intro hs
      exact absurd hs (by decide)
  · by_cases h2 : parse_slides (pyStrip isPySpace text) 6 = []
    · have he : generate_ppt_api text tpl u =
          ⟨400, false, some "No valid slides found", none, none, none⟩ := by
        simp [generate_ppt_api, h1, h2]
      refine ⟨fun h => absurd h h1, fun _ _ => he, ?_, ?_⟩
      · rw [he]
        simp [h2]
      · rw [he]
        intro hs
        exact absurd hs (by decide)
    · have he : generate_ppt_api text tpl u =
          ⟨200, true, none, some ("/generated/" ++ (u ++ ".pptx")),
           some ("/generated/" ++ (u ++ ".pptx")), none⟩ := by
        simp [generate_ppt_api, h1, h2, create_ppt_from_slides]
      refine ⟨fun h => absurd h h1, fun _ h => absurd h h2, ?_, fun _ => he⟩
      rw [he]
      simp [h1, h2]

theorem claim6_witness :
    generate_ppt_api [] none "u" = ⟨400, false, some "Empty topic", none, none, none⟩ ∧
    generate_ppt_api ("   ".data) none "u" =
      ⟨400, false, some "Empty topic", none, none, none⟩ ∧
    generate_ppt_api ("Slide 1: A".data) none "u" =
      ⟨200, true, none, some "/generated/u.pptx", some "/generated/u.pptx", none⟩ := by
  refine ⟨(claim6_generate_ppt [] none "u").1 rfl,
    (claim6_generate_ppt ("   ".data) none "u").1 (by decide), ?_⟩
  have hs : (generate_ppt_api ("Slide 1: A".data) none "u").status = 200 :=
    (claim6_generate_ppt ("Slide 1: A".data) none "u").2.2.1.mpr ⟨by decide, by decide⟩
  have he := (claim6_generate_ppt ("Slide 1: A".data) none "u").2.2.2 hs
  rw [he]
  rfl

/-- Claim C7: the /generate-auto-ppt handler returns 400 when the
stripped topic is empty; 500 when the external generation call yields no
text (exception or empty response); 400 when the generated text parses
to zero slides under the requested slide count; otherwise 200 with
slides_generated equal to the number of parsed records; and an absent
slide_count behaves exactly as slide_count = 6. -/
theorem claim7_generate_auto (topic : List Char) (tpl : Option String)
    (sc : Option Int) (ai : Option (List Char)) (u : String) :
    (pyStrip isPySpace topic = [] →
      generate_auto_ppt_api topic tpl sc ai u =
        ⟨400, false, some "No topic provided", none, none, none⟩) ∧
    (pyStrip isPySpace topic ≠ [] → (ai = none ∨ ai = some []) →
      generate_auto_ppt_api topic tpl sc ai u =
        ⟨500, false, some "AI generation failed", none, none, none⟩) ∧
    (∀ t : List Char, pyStrip isPySpace topic ≠ [] → ai = some t → t ≠ [] →
      parse_slides t (sc.getD 6) = [] →
      generate_auto_ppt_api topic tpl sc ai u =
        ⟨400, false, some "AI did not return valid slides", none, none, none⟩) ∧
    (∀ t : List Char, pyStrip isPySpace topic ≠ [] → ai = some t → t ≠ [] →
      parse_slides t (sc.getD 6) ≠ [] →
      generate_auto_ppt_api topic tpl sc ai u =
        ⟨200, true, none, some ("/generated/" ++ (u ++ ".pptx")),
         some ("/generated/" ++ (u ++ ".pptx")),
         some ((parse_slides t (sc.getD 6)).length : Int)⟩) ∧
    generate_auto_ppt_api topic tpl none ai u =
      generate_auto_ppt_api topic tpl (some 6) ai u := by
  refine ⟨?_, ?_, ?_, ?_, rfl⟩
  · intro h1
    simp [generate_auto_ppt_api, h1]
  · intro h1 hai
    rcases hai with rfl | rfl
    · simp [generate_auto_ppt_api, h1]
    · simp [generate_auto_ppt_api, h1]
  · intro t h1 hai ht hp
    subst hai
    simp [generate_auto_ppt_api, h1, ht, hp]
  · intro t h1 hai ht hp
    subst hai
    simp [generate_auto_ppt_api, h1, ht, hp, create_ppt_from_slides]

theorem claim7_witness :
    generate_auto_ppt_api ("AI".data) none (some 3)
      (some ("Slide 1: A\n- a1\nSlide 2: B\n- b1\nSlide 3: C\n- c1\nSlide 4: D\n- d1\nSlide 5: E\n- e1".data))
      "u" =
      ⟨200, true, none, some "/generated/u.pptx", some "/generated/u.pptx", some 3⟩ ∧
    countMarkers
      ("Slide 1: A\n- a1\nSlide 2: B\n- b1\nSlide 3: C\n- c1\nSlide 4: D\n- d1\nSlide 5: E\n- e1".data) = 5 := by
  have h := (claim7_generate_auto ("AI".data) none (some 3)
    (some ("Slide 1: A\n- a1\nSlide 2: B\n- b1\nSlide 3: C\n- c1\nSlide 4: D\n- d1\nSlide 5: E\n- e1".data))
    "u").2.2.2.1
    ("Slide 1: A\n- a1\nSlide 2: B\n- b1\nSlide 3: C\n- c1\nSlide 4: D\n- d1\nSlide 5: E\n- e1".data)
    (by decide) rfl (by decide) (by decide)
  rw [h]
  refine ⟨?_, by decide⟩
  decide
